import Mathlib

/-!
Shallow embedding of the multilingual chatbot pipeline
(services/content_filter.py, services/cultural_context_service.py,
services/language_detection_service.py, services/translation_service.py,
services/multilingual_service.py, services/chat_sharing.py, app.py),
together with theorems settling the frozen claims about it.

External black boxes (the generative backend, the loaded translation and
detection models) are modelled as oracle parameters returning `Option`
values, where `none` models a caught exception or an unavailable backend,
exactly as the Python code converts every failure into `None`.
Python floats that only carry confidence scores are modelled as rationals.
-/

namespace Chatbot

/-- Lowercase one character, modelling Python str.lower on the ASCII
range; every character this development ever lowercases outside that
range is already caseless in the source data. -/
def lowerChar (c : Char) : Char :=
  if 'A' ≤ c ∧ c ≤ 'Z' then Char.ofNat (c.toNat + 32) else c

/-- Model of Python text.lower(). -/
def lowerStr (s : String) : String := ⟨s.data.map lowerChar⟩

/-- Model of the Python substring test needle in hay, on char lists. -/
def subList (needle : List Char) : List Char → Bool
  | [] => needle.isEmpty
  | c :: t => needle.isPrefixOf (c :: t) || subList needle t

/-- Model of the Python substring test needle in hay, on strings. -/
def containsSub (hay needle : String) : Bool := subList needle.data hay.data

/-- Characters removed by Python str.strip() with no argument, on the
ASCII range. -/
def isSpaceChar (c : Char) : Bool :=
  c = ' ' || c = '\t' || c = '\n' || c = '\r' || c = '\x0b' || c = '\x0c'

/-- Drop leading whitespace characters. -/
def dropSpaces : List Char → List Char
  | [] => []
  | c :: t => if isSpaceChar c then dropSpaces t else c :: t

/-- Model of Python text.strip(). -/
def pyStrip (s : String) : String :=
  ⟨(dropSpaces (dropSpaces s.data).reverse).reverse⟩

/-- Python truthiness of an optional string: None and the empty string
are falsy. -/
def pyStrOpt (o : Option String) : Option String :=
  match o with
  | some s => if s = "" then none else some s
  | none => none

/-! ## services/content_filter.py -/

/-- Word-forming characters of the regex word boundary in the blocked
patterns. -/
def isWordChar (c : Char) : Bool := c.isAlphanum || c = '_'

/-- Whole-word match at the current position: the word is a
character-wise match here and the character right after it, if any, is
not a word character. -/
def matchesHere (w : List Char) (s : List Char) : Bool :=
  match w, s with
  | [], [] => true
  | [], c :: _ => !(isWordChar c)
  | _ :: _, [] => false
  | a :: w', c :: s' => a == c && matchesHere w' s'

/-- Word boundary on the left of the current position: start of text or
a non-word character just before it. -/
def boundaryOk (prev : Option Char) : Bool :=
  match prev with
  | none => true
  | some p => !(isWordChar p)

/-- Scan a text for a whole-word occurrence of w; prev is the character
just before the current position. -/
def scanWord (w : List Char) : Option Char → List Char → Bool
  | prev, [] => boundaryOk prev && matchesHere w []
  | prev, c :: s' => (boundaryOk prev && matchesHere w (c :: s')) || scanWord w (some c) s'

/-- Case-insensitive whole-word search in text, modelling
re.search of a word with boundary anchors under re.IGNORECASE. -/
def containsWordCI (text word : String) : Bool :=
  scanWord (lowerStr word).data none (lowerStr text).data

/-- ContentFilter.blocked_patterns: each group models one alternation
of whole words. -/
def blocked_patterns : List (List String) :=
  [["kill", "murder", "violence", "harm", "hurt", "attack"],
   ["hate", "racist", "discrimination"],
   ["explicit", "adult", "nsfw"],
   ["dangerous", "illegal", "drugs"]]

/-- Search of the compiled blocked patterns over the raw text. -/
def matchesBlocked (text : String) : Bool :=
  blocked_patterns.any (fun g => g.any (fun w => containsWordCI text w))

/-- ContentFilter harmful request phrases. -/
def harmful_requests : List String :=
  ["how to make weapons", "how to harm", "illegal activities",
   "generate explicit", "create inappropriate"]

/-- ContentFilter.is_content_safe. -/
def is_content_safe (text : String) : Bool × String :=
  if text = "" then (true, "Empty content")
  else
    let text_lower := pyStrip (lowerStr text)
    if matchesBlocked text then (false, "Content contains inappropriate material")
    else if harmful_requests.any (fun h => containsSub text_lower h) then
      (false, "Request involves harmful content")
    else if (["generate", "create", "make"].any (fun k => containsSub text_lower k))
            && containsSub text_lower "image"
            && (["nude", "naked", "explicit", "sexual", "violence", "weapon"].any
                  (fun w => containsSub text_lower w)) then
      (false, "Inappropriate image generation request")
    else (true, "Content approved")

/-- Safety gate of app.process_user_input: the generative backend is
reached only when the text is empty (filter skipped) or the filter
approves; an unsafe verdict returns before any generation request. -/
def reaches_generation (text : String) : Bool :=
  if text ≠ "" then (is_content_safe text).1 else true

example : is_content_safe "How do I make a weapon?" = (true, "Content approved") := by decide

example : is_content_safe "how to make weapons" = (false, "Request involves harmful content") := by decide

example : is_content_safe "" = (true, "Empty content") := by decide

example : is_content_safe "please kill time" = (false, "Content contains inappropriate material") := by decide

example : is_content_safe "killing time" = (true, "Content approved") := by decide

/-! ## services/cultural_context_service.py -/

/-- One entry of CulturalContextService.cultural_data. -/
structure CulturalProfile where
  region : String
  formality : String
  directness : String
  hierarchy : String
  time_orientation : String
  context : String
  personal_space : String
  greetings : List String
  farewell : List String
  politeness_markers : List String
  taboo_topics : List String
  cultural_values : List String
  business_hours : String
  holidays : List String
deriving DecidableEq

/-- The en entry of cultural_data. -/
def enProfile : CulturalProfile :=
  { region := "Global English", formality := "moderate", directness := "high",
    hierarchy := "low", time_orientation := "monochronic", context := "low",
    personal_space := "high",
    greetings := ["Hello", "Hi", "Good morning", "Good afternoon", "Good evening"],
    farewell := ["Goodbye", "Bye", "See you later", "Have a great day"],
    politeness_markers := ["please", "thank you", "you\x27re welcome", "excuse me"],
    taboo_topics := ["personal finances", "age", "weight"],
    cultural_values := ["individualism", "efficiency", "directness"],
    business_hours := "9:00-17:00",
    holidays := ["New Year", "Christmas", "Thanksgiving"] }

/-- The es entry of cultural_data. -/
def esProfile : CulturalProfile :=
  { region := "Spanish-speaking countries", formality := "high", directness := "moderate",
    hierarchy := "moderate", time_orientation := "polychronic", context := "high",
    personal_space := "low",
    greetings := ["Hola", "Buenos días", "Buenas tardes", "Buenas noches"],
    farewell := ["Adiós", "Hasta luego", "Nos vemos", "Que tengas buen día"],
    politeness_markers := ["por favor", "gracias", "de nada", "perdón", "disculpe"],
    taboo_topics := ["personal income", "politics", "religion"],
    cultural_values := ["family", "respect", "personalismo"],
    business_hours := "9:00-18:00",
    holidays := ["Día de los Reyes", "Semana Santa", "Día de los Muertos"] }

/-- The fr entry of cultural_data. -/
def frProfile : CulturalProfile :=
  { region := "French-speaking countries", formality := "very_high", directness := "moderate",
    hierarchy := "moderate", time_orientation := "monochronic", context := "high",
    personal_space := "moderate",
    greetings := ["Bonjour", "Bonsoir", "Salut"],
    farewell := ["Au revoir", "À bientôt", "Bonne journée", "Bonne soirée"],
    politeness_markers := ["s\x27il vous plaît", "merci", "de rien", "excusez-moi", "pardon"],
    taboo_topics := ["money", "personal life", "work after hours"],
    cultural_values := ["intellectualism", "sophistication", "formality"],
    business_hours := "9:00-17:00",
    holidays := ["Jour de l\x27An", "Pâques", "Fête du Travail", "Noël"] }

/-- The de entry of cultural_data. -/
def deProfile : CulturalProfile :=
  { region := "German-speaking countries", formality := "high", directness := "very_high",
    hierarchy := "moderate", time_orientation := "monochronic", context := "low",
    personal_space := "high",
    greetings := ["Guten Morgen", "Guten Tag", "Guten Abend", "Hallo"],
    farewell := ["Auf Wiedersehen", "Tschüss", "Schönen Tag noch"],
    politeness_markers := ["bitte", "danke", "entschuldigung", "verzeihung"],
    taboo_topics := ["personal finances", "Nazi era", "personal questions"],
    cultural_values := ["punctuality", "efficiency", "order", "directness"],
    business_hours := "8:00-17:00",
    holidays := ["Neujahr", "Ostern", "Tag der Arbeit", "Weihnachten"] }

/-- The zh entry of cultural_data. -/
def zhProfile : CulturalProfile :=
  { region := "Chinese-speaking regions", formality := "very_high", directness := "low",
    hierarchy := "high", time_orientation := "long_term", context := "very_high",
    personal_space := "low",
    greetings := ["你好", "您好", "早上好", "下午好", "晚上好"],
    farewell := ["再见", "拜拜", "回头见", "慢走"],
    politeness_markers := ["请", "谢谢", "不客气", "对不起", "抱歉"],
    taboo_topics := ["politics", "Taiwan", "Tibet", "personal failure"],
    cultural_values := ["harmony", "face", "hierarchy", "long-term thinking"],
    business_hours := "9:00-18:00",
    holidays := ["春节", "清明节", "劳动节", "中秋节", "国庆节"] }

/-- The ja entry of cultural_data. -/
def jaProfile : CulturalProfile :=
  { region := "Japan", formality := "very_high", directness := "very_low",
    hierarchy := "very_high", time_orientation := "long_term", context := "very_high",
    personal_space := "moderate",
    greetings := ["おはようございます", "こんにちは", "こんばんは"],
    farewell := ["さようなら", "また明日", "お疲れ様でした"],
    politeness_markers := ["お願いします", "ありがとうございます", "すみません", "失礼します"],
    taboo_topics := ["WWII", "personal failures", "direct criticism"],
    cultural_values := ["wa (harmony)", "respect", "group consensus", "face-saving"],
    business_hours := "9:00-18:00",
    holidays := ["お正月", "ゴールデンウィーク", "お盆", "敬老の日"] }

/-- The ar entry of cultural_data. -/
def arProfile : CulturalProfile :=
  { region := "Arabic-speaking countries", formality := "high", directness := "moderate",
    hierarchy := "high", time_orientation := "polychronic", context := "very_high",
    personal_space := "low",
    greetings := ["السلام عليكم", "أهلا وسهلا", "مرحبا", "صباح الخير"],
    farewell := ["مع السلامة", "إلى اللقاء", "الله معك"],
    politeness_markers := ["من فضلك", "شكرا", "عفوا", "آسف"],
    taboo_topics := ["alcohol", "pork", "personal relationships", "politics"],
    cultural_values := ["hospitality", "honor", "family", "religious respect"],
    business_hours := "8:00-16:00",
    holidays := ["عيد الفطر", "عيد الأضحى", "رمضان", "رأس السنة الهجرية"] }

/-- The hi entry of cultural_data. -/
def hiProfile : CulturalProfile :=
  { region := "India (Hindi)", formality := "high", directness := "low",
    hierarchy := "high", time_orientation := "polychronic", context := "high",
    personal_space := "low",
    greetings := ["नमस्ते", "नमस्कार", "आदाब", "सत श्री अकाल"],
    farewell := ["फिर मिलेंगे", "अलविदा", "जाइए"],
    politeness_markers := ["कृपया", "धन्यवाद", "माफ करिए", "क्षमा करें"],
    taboo_topics := ["beef", "caste system", "partition", "poverty"],
    cultural_values := ["respect for elders", "hospitality", "spirituality", "family"],
    business_hours := "10:00-18:00",
    holidays := ["दिवाली", "होली", "दशहरा", "ईद", "गुरु नानक जयंती"] }

/-- The pt entry of cultural_data. -/
def ptProfile : CulturalProfile :=
  { region := "Portuguese-speaking countries", formality := "moderate", directness := "moderate",
    hierarchy := "moderate", time_orientation := "polychronic", context := "high",
    personal_space := "low",
    greetings := ["Olá", "Bom dia", "Boa tarde", "Boa noite"],
    farewell := ["Tchau", "Até logo", "Até mais", "Tenha um bom dia"],
    politeness_markers := ["por favor", "obrigado/obrigada", "de nada", "desculpe"],
    taboo_topics := ["personal income", "politics", "colonial history"],
    cultural_values := ["warmth", "personal relationships", "flexibility"],
    business_hours := "9:00-18:00",
    holidays := ["Ano Novo", "Carnaval", "Páscoa", "Natal"] }

/-- The ru entry of cultural_data. -/
def ruProfile : CulturalProfile :=
  { region := "Russian-speaking countries", formality := "high", directness := "high",
    hierarchy := "high", time_orientation := "long_term", context := "high",
    personal_space := "low",
    greetings := ["Здравствуйте", "Привет", "Доброе утро", "Добрый день"],
    farewell := ["До свидания", "Пока", "Удачи", "Хорошего дня"],
    politeness_markers := ["пожалуйста", "спасибо", "извините", "простите"],
    taboo_topics := ["Soviet era", "personal finances", "politics"],
    cultural_values := ["strength", "endurance", "intellectual discourse", "tradition"],
    business_hours := "9:00-18:00",
    holidays := ["Новый год", "Рождество", "День Победы", "Масленица"] }

/-- CulturalContextService.cultural_data as a keyed lookup; none models
a language code absent from the table. -/
def culturalData (language : String) : Option CulturalProfile :=
  if language = "en" then some enProfile
  else if language = "es" then some esProfile
  else if language = "fr" then some frProfile
  else if language = "de" then some deProfile
  else if language = "zh" then some zhProfile
  else if language = "ja" then some jaProfile
  else if language = "ar" then some arProfile
  else if language = "hi" then some hiProfile
  else if language = "pt" then some ptProfile
  else if language = "ru" then some ruProfile
  else none

/-- CulturalContextService.get_cultural_context: dictionary get with
the en entry as the default (none would model the empty-dict default of
the inner get, which is unreachable because en is in the table). -/
def get_cultural_context (language : String) : Option CulturalProfile :=
  match culturalData language with
  | some p => some p
  | none => culturalData "en"

/-- Lookup of context.get with an empty-list default for the politeness
markers. -/
def politeness_markers_of (language : String) : List String :=
  match get_cultural_context language with
  | some p => p.politeness_markers
  | none => []

/-- CulturalContextService increase-formality helper. -/
def increase_formality (text language : String) : String :=
  let markers := politeness_markers_of language
  if !markers.isEmpty && !(markers.any fun m => containsSub (lowerStr text) m) then
    if language = "ja" then text ++ " よろしくお願いします。"
    else if language = "de" then text ++ " Bitte schön."
    else if language = "fr" then "Je vous prie de " ++ lowerStr text
    else if language = "zh" then "请问，" ++ text
    else text
  else text

/-- The per-language softening phrase table of the reduce-directness
helper, with the en list as the dictionary-get default. -/
def softening_phrases (language : String) : List String :=
  if language = "en" then ["I believe", "It seems", "Perhaps", "It might be that"]
  else if language = "es" then ["Creo que", "Parece que", "Quizás", "Tal vez"]
  else if language = "fr" then ["Je crois que", "Il semble que", "Peut-être", "Il se peut que"]
  else if language = "de" then ["Ich glaube", "Es scheint", "Vielleicht", "Möglicherweise"]
  else if language = "zh" then ["我觉得", "似乎", "也许", "可能"]
  else if language = "ja" then ["と思います", "ようです", "たぶん", "かもしれません"]
  else if language = "ar" then ["أعتقد", "يبدو", "ربما", "من المحتمل"]
  else if language = "hi" then ["मुझे लगता है", "शायद", "संभवतः"]
  else if language = "pt" then ["Eu acho que", "Parece que", "Talvez", "Pode ser que"]
  else if language = "ru" then ["Я думаю", "Кажется", "Возможно", "Может быть"]
  else ["I believe", "It seems", "Perhaps", "It might be that"]

/-- CulturalContextService reduce-directness helper. -/
def reduce_directness (text language : String) : String :=
  let phrases := softening_phrases language
  match phrases with
  | [] => text
  | p0 :: _ =>
    if !(phrases.any fun p => containsSub (lowerStr text) (lowerStr p)) then
      p0 ++ " " ++ lowerStr text
    else text

/-- CulturalContextService add-indirectness helper. -/
def add_indirectness (text language : String) : String :=
  if language = "ja" then
    if !(["かもしれません", "と思います", "ようです"].any fun m => containsSub text m) then
      text ++ "かもしれませんね。"
    else text
  else if language = "zh" then
    if !(["可能", "也许", "大概"].any fun m => containsSub text m) then
      "大概" ++ text
    else text
  else text

/-- The per-language context marker table of the add-context-markers
helper, with an empty-list dictionary-get default. -/
def context_markers_of (language : String) : List String :=
  if language = "zh" then ["众所周知", "如您所知", "正如我们都知道的"]
  else if language = "ja" then ["ご存知の通り", "もちろん", "お察しの通り"]
  else if language = "ar" then ["كما تعلم", "بالطبع", "من المعروف أن"]
  else if language = "hi" then ["जैसा कि आप जानते हैं", "जाहिर है", "स्पष्ट रूप से"]
  else []

/-- CulturalContextService add-context-markers helper (only for
responses longer than 50 characters). -/
def add_context_markers (text language : String) : String :=
  match context_markers_of language with
  | [] => text
  | m0 :: _ => if text.length > 50 then m0 ++ ", " ++ text else text

/-- CulturalContextService.adjust_response_style. -/
def adjust_response_style (response language user_input : String) : String :=
  let ctx := get_cultural_context language
  let formality := ctx.map fun p => p.formality
  let step1 :=
    if formality = some "very_high" ∨ formality = some "high" then
      increase_formality response language
    else response
  let directness := ctx.map fun p => p.directness
  let step2 :=
    if directness = some "low" then reduce_directness step1 language
    else if directness = some "very_low" then add_indirectness step1 language
    else step1
  let ctxLevel := ctx.map fun p => p.context
  if ctxLevel = some "high" ∨ ctxLevel = some "very_high" then
    add_context_markers step2 language
  else step2

example : adjust_response_style "Bonjour" "fr" "" = "Je vous prie de bonjour" := by decide

example :
    adjust_response_style (adjust_response_style "Bonjour" "fr" "") "fr" "" =
      "Je vous prie de je vous prie de bonjour" := by decide

example : adjust_response_style "Danke sehr" "de" "" = "Danke sehr" := by decide

example : adjust_response_style "Alles klar" "de" "" = "Alles klar Bitte schön." := by decide

/-! ## services/language_detection_service.py -/

/-- One collected detector result: the tuple (method, lang, conf)
appended to the results list of detect_language. -/
structure DetOutput where
  method : String
  lang : String
  conf : ℚ
deriving DecidableEq

/-- The reliability weight dictionary of detect_language, with the 0.5
dictionary-get default for unknown methods. -/
def weightOf (method : String) : ℚ :=
  if method = "langdetect" then 1
  else if method = "fasttext" then 4/5
  else if method = "transformer" then 9/10
  else 1/2

/-- The weighted score conf times weight computed for one result. -/
def weightedScore (o : DetOutput) : ℚ := o.conf * weightOf o.method

/-- One iteration of the best-score loop of detect_language: update on
a strictly larger weighted score. -/
def combineStep (acc : ℚ × String) (o : DetOutput) : ℚ × String :=
  if weightedScore o > acc.1 then (weightedScore o, o.lang) else acc

/-- LanguageDetectionService.detect_language, with the outputs of the
external detectors supplied as the already-collected results list.
Short or empty text returns (en, 0.5) before any detector output is
consulted; an empty results list returns (en, 0.3). -/
def detect_language (results : List DetOutput) (text : String) : String × ℚ :=
  if text = "" ∨ (pyStrip text).length < 3 then ("en", 1/2)
  else if results.isEmpty then ("en", 3/10)
  else
    let best := results.foldl combineStep (0, "en")
    (best.2, min best.1 1)

/-- Running maximum of the weighted scores starting from b. -/
def runMax (b : ℚ) (rs : List DetOutput) : ℚ :=
  rs.foldl (fun acc o => max acc (weightedScore o)) b

/-- The maximal weighted score over all collected results (0 when the
list is empty, matching the loop initialisation). -/
def bestScore (rs : List DetOutput) : ℚ := runMax 0 rs

/-! ## services/translation_service.py and services/multilingual_service.py -/

/-- Oracle type for the external Google Translate client call: text,
target language, source language, to the translated text, with none
modelling a raised-and-caught exception. -/
def GClient : Type := String → String → Option String → Option String

/-- Oracle type for the loaded M2M100 model: text, source, target. -/
def M2MOracle : Type := String → String → String → Option String

/-- TranslationService.translate_text; the client is none when the
Google Cloud library is missing or failed to initialise. -/
def TranslationService.translate_text (client : Option GClient)
    (text target : String) (source : Option String) : Option String :=
  match client with
  | none => none
  | some g =>
    if text = "" then none
    else if source = some target then some text
    else g text target source

/-- TranslationService.is_available. -/
def TranslationService.is_available (client : Option GClient) : Bool :=
  client.isSome

/-- The m2m100_mapping table: every supported code maps to itself. -/
def m2m100_codes : List String :=
  ["en", "es", "fr", "de", "zh", "ja", "ar", "hi", "pt", "ru",
   "it", "ko", "th", "vi", "tr", "pl", "nl", "sv", "da", "no",
   "fi", "he", "cs", "hu", "ro", "bg", "hr", "sk", "sl", "et",
   "lv", "lt", "uk", "be", "mk", "sr", "bs", "sq", "el", "ca",
   "gl", "eu", "mt", "ga", "cy", "is", "fo", "lb"]

/-- MultilingualService convert-to-m2m100-code helper. -/
def m2m100Code (c : String) : Option String :=
  if c ∈ m2m100_codes then some c else none

/-- MultilingualService translate-with-m2m100 helper; none when the
model is not loaded, a code is unsupported, or the model call fails. -/
def translate_with_m2m100 (m2m : Option M2MOracle)
    (text srcLang tgtLang : String) : Option String :=
  match m2m with
  | none => none
  | some f =>
    match m2m100Code srcLang, m2m100Code tgtLang with
    | some s, some t => f text s t
    | _, _ => none

/-- MultilingualService.translate_text: same-language short circuit,
then M2M100, then the Google Translate fallback. -/
def MultilingualService.translate_text (m2m : Option M2MOracle)
    (gclient : Option GClient) (text target : String) (source : Option String) :
    Option String :=
  if text = "" ∨ target = "" then none
  else if source = some target then some text
  else
    let viaM2M : Option String :=
      match source with
      | some s =>
        if s ≠ "" ∧ m2m.isSome then
          pyStrOpt (translate_with_m2m100 m2m text s target)
        else none
      | none => none
    match viaM2M with
    | some r => some r
    | none =>
      if TranslationService.is_available gclient then
        TranslationService.translate_text gclient text target source
      else none

/-- Translation step of app.generate_ai_response: for a non-English
resolved language with text present, try the multilingual service, then
the basic translation service, and keep the adapted text whenever no
truthy translation came back. -/
def translation_step (m2m : Option M2MOracle) (mlGClient appGClient : Option GClient)
    (language text : String) : String :=
  if language ≠ "en" ∧ text ≠ "" then
    let t1 := pyStrOpt (MultilingualService.translate_text m2m mlGClient text language (some "en"))
    let t2 :=
      match t1 with
      | some s => some s
      | none =>
        if TranslationService.is_available appGClient then
          TranslationService.translate_text appGClient text language (some "en")
        else none
    match pyStrOpt t2 with
    | some s => s
    | none => text
  else text

/-! ## services/chat_sharing.py -/

/-- One redacted message of a shared chat (binary payloads are
stripped, keeping only a had-image flag). -/
structure CleanMessage where
  role : String
  timestamp : String
  text : String
  has_image : Bool
deriving DecidableEq

/-- One stored shared-chat record. -/
structure ShareRecord where
  chat_id : String
  messages : List CleanMessage
  created_at : Nat
  expires_at : Nat
  view_count : Nat
deriving DecidableEq

/-- The in-memory token-to-record dictionary of ChatSharing. -/
def ShareStore : Type := String → Option ShareRecord

/-- ChatSharing.get_shared_chat at the given current time: a missing
token returns none, a token past its expiry is deleted and returns
none, and a live token has its view count incremented and is
returned. -/
def get_shared_chat (store : ShareStore) (token : String) (now : Nat) :
    Option ShareRecord × ShareStore :=
  match store token with
  | none => (none, store)
  | some r =>
    if now > r.expires_at then
      (none, fun t => if t = token then none else store t)
    else
      let r' := { r with view_count := r.view_count + 1 }
      (some r', fun t => if t = token then some r' else store t)

/-! ## app.py language resolution -/

/-- Language resolution of app.process_user_input with auto-detect
settings: the detected language is adopted only on confidence strictly
above 0.7 and a language different from the current selection. -/
def resolve_language (results : List DetOutput) (autoDetect : Bool)
    (textInput current : String) : String :=
  if textInput ≠ "" ∧ autoDetect = true then
    let d := detect_language results textInput
    if d.2 > 7/10 ∧ d.1 ≠ current then d.1 else current
  else current

example :
    detect_language [⟨"langdetect", "fr", 19/20⟩] "Bonjour, comment allez-vous?" =
      ("fr", 19/20) := by
  rw [detect_language, if_neg (by decide), if_neg (by decide)]
  simp only [List.foldl, combineStep, weightedScore, weightOf]
  norm_num

example : detect_language [⟨"langdetect", "fr", 19/20⟩] "hi" = ("en", 1/2) := by
  rw [detect_language, if_pos (by decide)]

example : detect_language [] "Bonjour tout le monde" = ("en", 3/10) := by
  rw [detect_language, if_neg (by decide), if_pos (by decide)]

example : detect_language [⟨"langdetect", "fr", 0⟩] "abc" = ("en", 0) := by
  rw [detect_language, if_neg (by decide), if_neg (by decide)]
  simp only [List.foldl, combineStep, weightedScore, weightOf]
  norm_num

example :
    resolve_language [⟨"langdetect", "fr", 19/20⟩] true "Bonjour, comment allez-vous?" "en" =
      "fr" := by
  have hd : detect_language [⟨"langdetect", "fr", 19/20⟩] "Bonjour, comment allez-vous?" =
      ("fr", 19/20) := by
    rw [detect_language, if_neg (by decide), if_neg (by decide)]
    simp only [List.foldl, combineStep, weightedScore, weightOf]
    norm_num
  rw [resolve_language, if_pos (by decide)]
  simp only [hd]
  norm_num
  decide

/-! ## Claim theorems -/

/-! Helper lemmas about the string model. -/

lemma data_append (a b : String) : (a ++ b).data = a.data ++ b.data := rfl

lemma lowerStr_append (a b : String) : lowerStr (a ++ b) = lowerStr a ++ lowerStr b := by
  show String.mk ((a ++ b).data.map lowerChar) =
    String.mk ((a.data.map lowerChar) ++ (b.data.map lowerChar))
  rw [data_append, List.map_append]

lemma subList_append_right (m y : List Char) (h : subList m y = true) (x : List Char) :
    subList m (x ++ y) = true := by
  induction x with
  | nil => simpa using h
  | cons c t ih => simp [subList, ih]

lemma bitte_in_lower_append (t : String) :
    containsSub (lowerStr (t ++ " Bitte schön.")) "bitte" = true := by
  show subList "bitte".data (lowerStr (t ++ " Bitte schön.")).data = true
  rw [lowerStr_append]
  have h2 : lowerStr " Bitte schön." = " bitte schön." := by decide
  rw [h2]
  show subList "bitte".data ((lowerStr t).data ++ " bitte schön.".data) = true
  exact subList_append_right _ _ (by decide) _

/-! Evaluation lemmas for adjust_response_style on the idempotent
high-formality languages. -/

lemma adjust_de_eq (t u : String) :
    adjust_response_style t "de" u = increase_formality t "de" := rfl

lemma adjust_es_eq (t u : String) :
    adjust_response_style t "es" u = increase_formality t "es" := rfl

lemma adjust_ru_eq (t u : String) :
    adjust_response_style t "ru" u = increase_formality t "ru" := rfl

lemma increase_formality_es (t : String) : increase_formality t "es" = t := by
  have hm : politeness_markers_of "es" =
      ["por favor", "gracias", "de nada", "perdón", "disculpe"] := rfl
  simp only [increase_formality, hm]
  cases h : (["por favor", "gracias", "de nada", "perdón", "disculpe"].any
      fun m => containsSub (lowerStr t) m) <;> simp [h]

lemma increase_formality_ru (t : String) : increase_formality t "ru" = t := by
  have hm : politeness_markers_of "ru" =
      ["пожалуйста", "спасибо", "извините", "простите"] := rfl
  simp only [increase_formality, hm]
  cases h : (["пожалуйста", "спасибо", "извините", "простите"].any
      fun m => containsSub (lowerStr t) m) <;> simp [h]

lemma increase_formality_de (t : String) :
    increase_formality t "de" =
      if (["bitte", "danke", "entschuldigung", "verzeihung"].any
          fun m => containsSub (lowerStr t) m) = true then t
      else t ++ " Bitte schön." := by
  have hm : politeness_markers_of "de" =
      ["bitte", "danke", "entschuldigung", "verzeihung"] := rfl
  simp only [increase_formality, hm]
  cases h : (["bitte", "danke", "entschuldigung", "verzeihung"].any
      fun m => containsSub (lowerStr t) m) <;> simp [h]

lemma increase_formality_de_idem (t : String) :
    increase_formality (increase_formality t "de") "de" = increase_formality t "de" := by
  rw [increase_formality_de t]
  cases h : (["bitte", "danke", "entschuldigung", "verzeihung"].any
      fun m => containsSub (lowerStr t) m) with
  | true => simp [h, increase_formality_de t]
  | false =>
    simp only [h, Bool.false_eq_true, if_neg, ite_false]
    rw [increase_formality_de (t ++ " Bitte schön.")]
    have hany : (["bitte", "danke", "entschuldigung", "verzeihung"].any
        fun m => containsSub (lowerStr (t ++ " Bitte schön.")) m) = true := by
      have hb := bitte_in_lower_append t
      simp [hb]
    rw [if_pos hany]

/-- C2 counterexample: fr has very_high profile formality, yet applying
adjust_response_style twice to the response Bonjour doubles the inserted
politeness prefix, so adjust is not idempotent for every high-formality
language. -/
theorem adjust_not_idempotent_fr :
    frProfile.formality = "very_high" ∧
      adjust_response_style (adjust_response_style "Bonjour" "fr" "") "fr" "" ≠
        adjust_response_style "Bonjour" "fr" "" :=
  ⟨rfl, by decide⟩

/-- C2 amended: for the high-formality languages de, es and ru, whose
insertions re-trigger the containment guards, adjust_response_style is
idempotent for every response text; the law fails for fr (see the
counterexample), and for zh, ja, ar and hi the unguarded context-marker
insertion re-fires on texts longer than 50 characters. -/
theorem adjust_idempotent_high_formality (t u₁ u₂ : String) :
    adjust_response_style (adjust_response_style t "de" u₁) "de" u₂ =
        adjust_response_style t "de" u₁ ∧
      adjust_response_style (adjust_response_style t "es" u₁) "es" u₂ =
        adjust_response_style t "es" u₁ ∧
      adjust_response_style (adjust_response_style t "ru" u₁) "ru" u₂ =
        adjust_response_style t "ru" u₁ := by
  refine ⟨?_, ?_, ?_⟩
  · rw [adjust_de_eq, adjust_de_eq]
    exact increase_formality_de_idem t
  · rw [adjust_es_eq, adjust_es_eq, increase_formality_es, increase_formality_es]
  · rw [adjust_ru_eq, adjust_ru_eq, increase_formality_ru, increase_formality_ru]

/-- C1 counterexample: the literal input of the claim matches no blocked
word pattern, no harmful-request phrase, and no image-generation rule, so
is_content_safe approves it and the pipeline does reach the generative
backend, contrary to the claimed (false, harmful-content) verdict. -/
theorem weapon_question_is_approved :
    is_content_safe "How do I make a weapon?" = (true, "Content approved") ∧
      reaches_generation "How do I make a weapon?" = true := by
  decide

/-- C1 amended: for the phrasing that is actually on the filter's
harmful-request list, is_content_safe returns (false, "Request involves
harmful content") and the pipeline halts before the generative backend;
the original phrasing of the claim is approved instead. -/
theorem harmful_phrase_blocks_generation :
    is_content_safe "how to make weapons" = (false, "Request involves harmful content") ∧
      reaches_generation "how to make weapons" = false := by
  decide

/-- C3 counterexample: with both translation backends present and even
echoing their input, translate on an empty text with equal source and
target language returns none rather than the unchanged text, because the
empty-text guard fires before the same-language short circuit. -/
theorem translate_empty_text_returns_none :
    MultilingualService.translate_text (some fun t _ _ => some t) (some fun t _ _ => some t)
        "" "en" (some "en") = none ∧
      (none : Option String) ≠ some "" := by
  exact ⟨rfl, by decide⟩

/-- C3 amended: for every nonempty text and nonempty language code L,
translate(text, L, L) returns the text unchanged, independently of any
backend availability, in the multilingual orchestrator as well as in the
basic translation service whenever its client is initialised. -/
theorem translate_same_language_identity (m2m : Option M2MOracle) (g : Option GClient)
    (f : GClient) (text lang : String) (htext : text ≠ "") (hlang : lang ≠ "") :
    MultilingualService.translate_text m2m g text lang (some lang) = some text ∧
      TranslationService.translate_text (some f) text lang (some lang) = some text := by
  constructor
  · rw [MultilingualService.translate_text, if_neg (not_or.mpr ⟨htext, hlang⟩), if_pos rfl]
  · show (if text = "" then none
        else if (some lang : Option String) = some lang then some text
        else f text lang (some lang)) = some text
    rw [if_neg htext, if_pos rfl]

/-- C3 witness: the amended identity law at a concrete nonempty text and
language, with no backend loaded at all. -/
theorem translate_same_language_identity_witness :
    MultilingualService.translate_text none none "hello" "fr" (some "fr") = some "hello" ∧
      TranslationService.translate_text (some fun _ _ _ => none) "hello" "fr" (some "fr") =
        some "hello" :=
  translate_same_language_identity none none (fun _ _ _ => none) "hello" "fr"
    (by decide) (by decide)

/-- C4: a token whose stored record has expired strictly before the
current time is not returned, its record is deleted by that first
access, and any later retrieval of the same token returns none. -/
theorem expired_share_never_returned (store : ShareStore) (token : String)
    (now now' : Nat) (r : ShareRecord) (hr : store token = some r)
    (hexp : r.expires_at < now) :
    (get_shared_chat store token now).1 = none ∧
      ((get_shared_chat store token now).2) token = none ∧
      (get_shared_chat ((get_shared_chat store token now).2) token now').1 = none := by
  have hstep : get_shared_chat store token now =
      (none, fun t => if t = token then none else store t) := by
    rw [get_shared_chat, hr]
    exact if_pos hexp
  refine ⟨by rw [hstep], by rw [hstep]; simp, ?_⟩
  rw [hstep]
  show (get_shared_chat (fun t => if t = token then none else store t) token now').1 = none
  rw [get_shared_chat]
  simp

/-- C4 witness data: one stored record expiring at time 10. -/
def sampleRecord : ShareRecord :=
  { chat_id := "chat-1",
    messages := [{ role := "user", timestamp := "t0", text := "hello", has_image := false }],
    created_at := 0, expires_at := 10, view_count := 0 }

/-- C4 witness data: a store holding the sample record under one token. -/
def sampleStore : ShareStore := fun t => if t = "tok" then some sampleRecord else none

/-- C4 witness: retrieving the sample token at time 11 returns none and
deletes the record, and retrieving again at time 12 returns none. -/
theorem expired_share_never_returned_witness :
    (get_shared_chat sampleStore "tok" 11).1 = none ∧
      ((get_shared_chat sampleStore "tok" 11).2) "tok" = none ∧
      (get_shared_chat ((get_shared_chat sampleStore "tok" 11).2) "tok" 12).1 = none :=
  expired_share_never_returned sampleStore "tok" 11 12 sampleRecord rfl (by decide)

/-- C5: every language code missing from the cultural table resolves to
the en profile, and the resolved profile is non-nil for every code. -/
theorem cultural_profile_fallback (language : String) :
    (culturalData language = none → get_cultural_context language = some enProfile) ∧
      (get_cultural_context language).isSome = true := by
  constructor
  · intro h
    rw [get_cultural_context, h]
    rfl
  · rw [get_cultural_context]
    cases h : culturalData language with
    | none => rfl
    | some p => rfl

/-- C5 witness: the unknown code xx resolves to the en profile and is
non-nil. -/
theorem cultural_profile_fallback_witness :
    get_cultural_context "xx" = some enProfile ∧ (get_cultural_context "xx").isSome = true :=
  ⟨(cultural_profile_fallback "xx").1 rfl, (cultural_profile_fallback "xx").2⟩

/-- C6: any text whose stripped length is below 3 characters makes
detect_language return exactly (en, 0.5), whatever the detector outputs
would have been. -/
theorem detect_short_text_default (results : List DetOutput) (text : String)
    (h : (pyStrip text).length < 3) :
    detect_language results text = ("en", 1/2) := by
  rw [detect_language, if_pos (Or.inr h)]

/-- C6 witness: the two-character text hi returns (en, 0.5) even though
a detector output voted fr with high confidence. -/
theorem detect_short_text_default_witness :
    (pyStrip "hi").length < 3 ∧
      detect_language [⟨"langdetect", "fr", 19/20⟩] "hi" = ("en", 1/2) :=
  ⟨by decide, detect_short_text_default [⟨"langdetect", "fr", 19/20⟩] "hi" (by decide)⟩

/-- C8: when the multilingual translation (M2M100 with its internal
Google fallback) yields none and the basic translation service is
unavailable or also yields none, the translation step delivers the
culturally adapted text unchanged; the embedded step is a total
function, matching the source where every translator failure is caught
and converted to None. -/
theorem translation_failure_keeps_adapted_text (m2m : Option M2MOracle)
    (mlG appG : Option GClient) (language text : String)
    (h1 : MultilingualService.translate_text m2m mlG text language (some "en") = none)
    (h2 : appG = none ∨ TranslationService.translate_text appG text language (some "en") = none) :
    translation_step m2m mlG appG language text = text := by
  by_cases hc : language ≠ "en" ∧ text ≠ ""
  · cases appG with
    | none =>
      rw [translation_step, if_pos hc, h1]
      rfl
    | some g =>
      rcases h2 with h | h
      · exact absurd h (by simp)
      · rw [translation_step, if_pos hc, h1, h]
        rfl
  · rw [translation_step, if_neg hc]

/-- C8 witness: with no translation backend loaded at all, the adapted
French-styled text is delivered unchanged. -/
theorem translation_failure_keeps_adapted_text_witness :
    translation_step none none none "fr" "Je vous prie de bonjour" = "Je vous prie de bonjour" :=
  translation_failure_keeps_adapted_text none none none "fr" "Je vous prie de bonjour"
    rfl (Or.inl rfl)

/-- C9: with auto-detect on and text present, the resolved working
language is the detected one exactly when the detection confidence is
strictly above 0.7 and the detected language differs from the current
selection; otherwise the current selection is kept. -/
theorem auto_detect_adoption_rule (results : List DetOutput) (text current : String)
    (htext : text ≠ "") :
    (((detect_language results text).2 > 7/10 ∧ (detect_language results text).1 ≠ current) →
        resolve_language results true text current = (detect_language results text).1) ∧
      (¬((detect_language results text).2 > 7/10 ∧ (detect_language results text).1 ≠ current) →
        resolve_language results true text current = current) := by
  constructor <;> intro h <;> rw [resolve_language, if_pos ⟨htext, rfl⟩] <;>
    show (if (detect_language results text).2 > 7/10 ∧
        (detect_language results text).1 ≠ current then
        (detect_language results text).1 else current) = _
  · rw [if_pos h]
  · rw [if_neg h]

/-- C9 witness: the French greeting detected as fr at confidence 0.95
against current language en switches the working language to fr. -/
theorem auto_detect_adoption_rule_witness :
    resolve_language [⟨"langdetect", "fr", 19/20⟩] true "Bonjour, comment allez-vous?" "en" =
      "fr" := by
  have hd : detect_language [⟨"langdetect", "fr", 19/20⟩] "Bonjour, comment allez-vous?" =
      ("fr", 19/20) := by
    rw [detect_language, if_neg (by decide), if_neg (by decide)]
    simp only [List.foldl, combineStep, weightedScore, weightOf]
    norm_num
  have h := (auto_detect_adoption_rule [⟨"langdetect", "fr", 19/20⟩]
      "Bonjour, comment allez-vous?" "en" (by decide)).1
    (by rw [hd]; exact ⟨by norm_num, by decide⟩)
  rw [h, hd]

/-! Helper lemmas about the best-score loop of detect_language. -/

lemma runMax_nil (b : ℚ) : runMax b [] = b := rfl

lemma runMax_cons (b : ℚ) (o : DetOutput) (rs : List DetOutput) :
    runMax b (o :: rs) = runMax (max b (weightedScore o)) rs := rfl

lemma le_runMax (b : ℚ) (rs : List DetOutput) : b ≤ runMax b rs := by
  induction rs generalizing b with
  | nil => exact le_refl b
  | cons o rs ih =>
    rw [runMax_cons]
    exact le_trans (le_max_left _ _) (ih _)

lemma weightedScore_le_runMax (rs : List DetOutput) (o : DetOutput) (ho : o ∈ rs)
    (b : ℚ) : weightedScore o ≤ runMax b rs := by
  induction rs generalizing b with
  | nil => cases ho
  | cons o' rs ih =>
    rw [runMax_cons]
    rcases List.mem_cons.mp ho with h | h
    · subst h
      exact le_trans (le_max_right _ _) (le_runMax _ _)
    · exact ih h _

lemma foldl_combineStep_fst (rs : List DetOutput) (b : ℚ) (l : String) :
    (rs.foldl combineStep (b, l)).1 = runMax b rs := by
  induction rs generalizing b l with
  | nil => rfl
  | cons o rs ih =>
    rw [List.foldl_cons, runMax_cons]
    by_cases h : weightedScore o > b
    · have hc : combineStep (b, l) o = (weightedScore o, o.lang) := by
        rw [combineStep, if_pos h]
      rw [hc, ih, max_eq_right h.le]
    · have hc : combineStep (b, l) o = (b, l) := by
        rw [combineStep, if_neg h]
      rw [hc, ih, max_eq_left (not_lt.mp h)]

lemma foldl_combineStep_stay (rs : List DetOutput) (b : ℚ) (l : String)
    (h : runMax b rs ≤ b) : rs.foldl combineStep (b, l) = (b, l) := by
  induction rs generalizing b l with
  | nil => rfl
  | cons o rs ih =>
    rw [runMax_cons] at h
    have hso : weightedScore o ≤ b :=
      le_trans (le_trans (le_max_right _ _) (le_runMax _ _)) h
    have hmax : max b (weightedScore o) = b := max_eq_left hso
    rw [List.foldl_cons]
    have hc : combineStep (b, l) o = (b, l) := by
      rw [combineStep, if_neg (not_lt.mpr hso)]
    rw [hc]
    rw [hmax] at h
    exact ih _ _ h

lemma foldl_combineStep_find (rs : List DetOutput) :
    ∀ (b : ℚ) (l : String), b < runMax b rs →
      ∃ o, rs.find? (fun o' => decide (runMax b rs ≤ weightedScore o')) = some o ∧
        (rs.foldl combineStep (b, l)).2 = o.lang ∧ weightedScore o = runMax b rs := by
  induction rs with
  | nil =>
    intro b l h
    rw [runMax_nil] at h
    exact absurd h (lt_irrefl b)
  | cons o rs ih =>
    intro b l h
    simp only [runMax_cons] at h ⊢
    by_cases h1 : b < weightedScore o
    · have hmax : max b (weightedScore o) = weightedScore o := max_eq_right h1.le
      simp only [hmax] at h ⊢
      by_cases h2 : runMax (weightedScore o) rs ≤ weightedScore o
      · have hM : runMax (weightedScore o) rs = weightedScore o :=
          le_antisymm h2 (le_runMax _ _)
        refine ⟨o, ?_, ?_, hM.symm⟩
        · exact List.find?_cons_of_pos _ (by simpa using h2)
        · rw [List.foldl_cons]
          have hc : combineStep (b, l) o = (weightedScore o, o.lang) := by
            rw [combineStep, if_pos h1]
          rw [hc, foldl_combineStep_stay _ _ _ h2]
      · push_neg at h2
        obtain ⟨o', hfind, hfold, hscore⟩ := ih (weightedScore o) o.lang h2
        refine ⟨o', ?_, ?_, hscore⟩
        · rw [List.find?_cons_of_neg _ (by simpa using not_le.mpr h2)]
          exact hfind
        · rw [List.foldl_cons]
          have hc : combineStep (b, l) o = (weightedScore o, o.lang) := by
            rw [combineStep, if_pos h1]
          rw [hc]
          exact hfold
    · have hso : weightedScore o ≤ b := not_lt.mp h1
      have hmax : max b (weightedScore o) = b := max_eq_left hso
      simp only [hmax] at h ⊢
      obtain ⟨o', hfind, hfold, hscore⟩ := ih b l h
      refine ⟨o', ?_, ?_, hscore⟩
      · have hlt : weightedScore o < runMax b rs := lt_of_le_of_lt hso h
        rw [List.find?_cons_of_neg _ (by simpa using not_le.mpr hlt)]
        exact hfind
      · rw [List.foldl_cons]
        have hc : combineStep (b, l) o = (b, l) := by
          rw [combineStep, if_neg h1]
        rw [hc]
        exact hfold

lemma weightOf_pos (m : String) : 0 < weightOf m := by
  rw [weightOf]
  split_ifs <;> norm_num

/-- C7 counterexample: a single collected output with raw confidence 0
attains the maximal weighted score 0, yet detect_language returns en
rather than its language fr, because the best-score loop only updates on
a strictly positive improvement over its 0 initialiser. -/
theorem detect_zero_confidence_keeps_en :
    detect_language [⟨"langdetect", "fr", 0⟩] "abc" = ("en", 0) ∧
      ([⟨"langdetect", "fr", 0⟩] : List DetOutput).find?
          (fun o' => decide (bestScore [⟨"langdetect", "fr", 0⟩] ≤ weightedScore o')) =
        some ⟨"langdetect", "fr", 0⟩ ∧
      ("en" : String) ≠ "fr" := by
  refine ⟨?_, ?_, by decide⟩
  · rw [detect_language, if_neg (by decide), if_neg (by decide)]
    simp only [List.foldl, combineStep, weightedScore, weightOf]
    norm_num
  · rw [List.find?_cons_of_pos]
    simp only [bestScore, runMax, weightedScore, weightOf, List.foldl]
    norm_num

/-- C7 amended: the reliability weights are as claimed; with no
collected output the result is (en, 0.3); and whenever every collected
raw confidence is strictly positive, detect_language returns the
language of the first output attaining the maximal weighted score (the
fixed first-detector tie-break), with the confidence clamped to at most
1. Without the positivity hypothesis the claim fails, see the
counterexample. -/
theorem detect_weighted_max_first (text : String) (results : List DetOutput)
    (h3 : 3 ≤ (pyStrip text).length) :
    (weightOf "langdetect" = 1 ∧ weightOf "fasttext" = 4/5 ∧ weightOf "transformer" = 9/10 ∧
        ∀ m, m ≠ "langdetect" → m ≠ "fasttext" → m ≠ "transformer" → weightOf m = 1/2) ∧
      (results = [] → detect_language results text = ("en", 3/10)) ∧
      ((∀ o ∈ results, 0 < o.conf) → results ≠ [] →
        ∃ o, results.find? (fun o' => decide (bestScore results ≤ weightedScore o')) = some o ∧
          weightedScore o = bestScore results ∧
          detect_language results text = (o.lang, min (bestScore results) 1)) := by
  have hcond : ¬(text = "" ∨ (pyStrip text).length < 3) := by
    rintro (h | h)
    · subst h
      exact absurd h3 (by decide)
    · omega
  refine ⟨⟨rfl, rfl, rfl, ?_⟩, ?_, ?_⟩
  · intro m h1 h2 h3
    rw [weightOf, if_neg h1, if_neg h2, if_neg h3]
  · intro h
    subst h
    rw [detect_language, if_neg hcond]
    rfl
  · intro hpos hne
    have hb : 0 < bestScore results := by
      obtain ⟨o₀, rest, rfl⟩ := List.exists_cons_of_ne_nil hne
      have hpos₀ : 0 < weightedScore o₀ :=
        mul_pos (hpos o₀ (List.mem_cons_self o₀ rest)) (weightOf_pos _)
      exact lt_of_lt_of_le hpos₀ (weightedScore_le_runMax _ _ (List.mem_cons_self o₀ rest) 0)
    obtain ⟨o, hfind, hfold, hscore⟩ := foldl_combineStep_find results 0 "en" hb
    refine ⟨o, hfind, hscore, ?_⟩
    rw [detect_language, if_neg hcond,
      if_neg (by simpa [List.isEmpty_iff] using hne)]
    show ((results.foldl combineStep (0, "en")).2,
        min (results.foldl combineStep (0, "en")).1 1) = (o.lang, min (bestScore results) 1)
    rw [hfold, foldl_combineStep_fst]
    rfl

/-- C7 witness: two collected outputs with positive confidences; the
langdetect vote for fr at weighted score 0.9 beats the fasttext vote for
en at weighted score 0.64, and detect_language returns fr with clamped
confidence 0.9. -/
theorem detect_weighted_max_first_witness :
    ∃ o, ([⟨"langdetect", "fr", 9/10⟩, ⟨"fasttext", "en", 4/5⟩] : List DetOutput).find?
          (fun o' => decide (bestScore [⟨"langdetect", "fr", 9/10⟩, ⟨"fasttext", "en", 4/5⟩] ≤
            weightedScore o')) = some o ∧
        weightedScore o = bestScore [⟨"langdetect", "fr", 9/10⟩, ⟨"fasttext", "en", 4/5⟩] ∧
        detect_language [⟨"langdetect", "fr", 9/10⟩, ⟨"fasttext", "en", 4/5⟩] "bonjour" =
          (o.lang, min (bestScore [⟨"langdetect", "fr", 9/10⟩, ⟨"fasttext", "en", 4/5⟩]) 1) :=
  (detect_weighted_max_first "bonjour" [⟨"langdetect", "fr", 9/10⟩, ⟨"fasttext", "en", 4/5⟩]
      (by decide)).2.2
    (by
      intro o ho
      rcases List.mem_cons.mp ho with h | h
      · subst h; norm_num
      · rcases List.mem_cons.mp h with h' | h'
        · subst h'; norm_num
        · cases h')
    (by decide)

/-- C10: empty (or missing, passed through as empty) input text is
approved by the content filter with the verdict (true, "Empty content"),
and an empty-text message is never rejected before generation. -/
theorem empty_text_content_safe :
    is_content_safe "" = (true, "Empty content") ∧ reaches_generation "" = true := by
  decide

end Chatbot
